import Mathlib

/-!
Shallow embedding of `src/hardware/hardware.ino`, an ESP8266 sketch that
serves a five-route HTTP interface controlling a Midea fan over infrared.
The mutable global `bool isFanOn` is modelled by explicit state passing:
each HTTP handler becomes a function from the current state (and, for
`/set_state`, the optional request argument) to a `HandlerResult` recording
the new state, the list of IR transmissions performed, and the HTTP
response issued.
-/

namespace Hardware

/-- `constexpr uint8_t IR_BITS = 24;` -/
def IR_BITS : Nat := 24

/-- `constexpr uint32_t IR_CODE_TOGGLE_FAN = 0x80C0C0;` -/
def IR_CODE_TOGGLE_FAN : Nat := 0x80C0C0

/-- `constexpr uint32_t IR_CODE_ADD_POWER = 0x80B0B0;` -/
def IR_CODE_ADD_POWER : Nat := 0x80B0B0

/-- `constexpr uint32_t IR_CODE_LOWER_POWER = 0x808888;` -/
def IR_CODE_LOWER_POWER : Nat := 0x808888

/-- The IR protocol constant passed to `irsend.send`; the sketch only ever
uses `MIDEA24`. -/
inductive IRProtocol where
  | MIDEA24
deriving DecidableEq, Repr

/-- One call to `irsend.send(protocol, code, bits)`. -/
structure IRSignal where
  protocol : IRProtocol
  code : Nat
  bits : Nat
deriving DecidableEq, Repr

/-- `sendIRSignal(code, bits)` forwards its arguments to
`irsend.send(MIDEA24, code, bits)` (the `Serial` logging is I/O only and
not modelled). -/
def sendIRSignal (code : Nat) (bits : Nat) : IRSignal :=
  ⟨IRProtocol.MIDEA24, code, bits⟩

/-- An HTTP response as produced by `server.sendHeader` / `server.send`:
status code, optional `Location` header, optional content type and body. -/
structure Response where
  status : Nat
  location : Option String
  contentType : Option String
  body : Option String
deriving DecidableEq, Repr

/-- `server.sendHeader("Location", "/"); server.send(303);` -/
def redirectRoot : Response :=
  { status := 303, location := some "/", contentType := none, body := none }

/-- Result of running one handler: the value of `isFanOn` after the
handler, the IR transmissions it performed in order, and the response. -/
structure HandlerResult where
  isFanOn : Bool
  sent : List IRSignal
  response : Response
deriving DecidableEq, Repr

/-- `bool isFanOn = false;` — the state assumed at startup. -/
def isFanOn_initial : Bool := false

/-- The first raw HTML literal of `handleRoot` (doctype, head, styles,
opening of the body). -/
def htmlHead : String :=
  "\n<!DOCTYPE html>\n<html>\n<head>\n  <meta charset=\x27utf-8\x27>\n  <meta name=\x27viewport\x27 content=\x27width=device-width,initial-scale=1\x27>\n  <title>ESP8266 State Remote</title>\n  <style>\n    body \x7b font-family: Arial, sans-serif; text-align: center; margin-top: 50px; background-color: #f4f4f4; \x7d\n    h2, h3 \x7b color: #333; \x7d\n    .container \x7b border: 1px solid #ccc; background-color: #fff; padding: 20px; margin: 20px auto; max-width: 400px; border-radius: 8px; box-shadow: 0 2px 4px rgba(0,0,0,0.1); \x7d\n    button \x7b padding: 12px 24px; font-size: 18px; margin: 5px; cursor: pointer; border: none; border-radius: 5px; color: white; \x7d\n    .btn-main \x7b background-color: #28a745; \x7d\n    .btn-main.off \x7b background-color: #dc3545; \x7d\n    .btn-sync \x7b background-color: #ffc107; color: #333; font-size: 14px; padding: 8px 16px;\x7d\n  </style>\n</head>\n<body>\n  <h2>ESP8266 Midea IR Remote</h2>"

/-- The static power-control raw literal of `handleRoot`. -/
def htmlPower : String :=
  "\n  <div class=\"container\">\n    <h3>Power Control</h3>\n    <form action=\x27/send_add_power\x27 method=\x27post\x27 style=\x27display:inline;\x27>\n      <button type=\x27submit\x27>Increase Power</button>\n    </form>\n    <form action=\x27/send_lower_power\x27 method=\x27post\x27 style=\x27display:inline;\x27>\n      <button type=\x27submit\x27>Decrease Power</button>\n    </form>\n  </div>"

/-- The static manual-sync raw literal of `handleRoot`. -/
def htmlSync : String :=
  "\n  <div class=\"container\">\n    <h3>Manual Sync</h3>\n    <p>If the state above is wrong, correct it here. This will NOT send an IR signal.</p>\n    <form action=\x27/set_state\x27 method=\x27post\x27 style=\x27display:inline;\x27>\n      <button type=\x27submit\x27 name=\x27state\x27 value=\x27on\x27 class=\x27btn-sync\x27>Set state to ON</button>\n    </form>\n    <form action=\x27/set_state\x27 method=\x27post\x27 style=\x27display:inline;\x27>\n      <button type=\x27submit\x27 name=\x27state\x27 value=\x27off\x27 class=\x27btn-sync\x27>Set state to OFF</button>\n    </form>\n  </div>"

/-- The HTML page assembled by `handleRoot`, appending the same pieces in
the same order as the sketch's `html +=` sequence. -/
def rootHtml (isFanOn : Bool) : String :=
  htmlHead
  ++ "<div class=\x27container\x27>"
  ++ "<h3>Main Control</h3>"
  ++ "<p>Current State: <b>"
  ++ (if isFanOn then "ON" else "OFF")
  ++ "</b></p>"
  ++ "<form action=\x27/toggle\x27 method=\x27post\x27>"
  ++ (if isFanOn then
        "<button type=\x27submit\x27 class=\x27btn-main off\x27>Turn OFF</button>"
      else
        "<button type=\x27submit\x27 class=\x27btn-main\x27>Turn ON</button>")
  ++ "</form></div>"
  ++ htmlPower
  ++ htmlSync
  ++ "</body></html>"

/-- `handleRoot`: builds the page and replies
`server.send(200, "text/html", html)`; no IR is sent, no state changes. -/
def handleRoot (isFanOn : Bool) : HandlerResult :=
  { isFanOn := isFanOn
    sent := []
    response :=
      { status := 200, location := none,
        contentType := some "text/html", body := some (rootHtml isFanOn) } }

/-- `handleToggle`: sends the toggle code, flips `isFanOn`, redirects. -/
def handleToggle (isFanOn : Bool) : HandlerResult :=
  { isFanOn := !isFanOn
    sent := [sendIRSignal IR_CODE_TOGGLE_FAN IR_BITS]
    response := redirectRoot }

/-- `handleSetState`: if the request carries a `state` argument equal to
`"on"` or `"off"` the state is overwritten, otherwise it is untouched;
always redirects, never sends IR. `stateArg` is
`server.hasArg("state") ? some (server.arg("state")) : none`. -/
def handleSetState (isFanOn : Bool) (stateArg : Option String) : HandlerResult :=
  { isFanOn :=
      match stateArg with
      | some s => if s = "on" then true else if s = "off" then false else isFanOn
      | none => isFanOn
    sent := []
    response := redirectRoot }

/-- `handleSendAddPower`: sends the add-power code and redirects. -/
def handleSendAddPower (isFanOn : Bool) : HandlerResult :=
  { isFanOn := isFanOn
    sent := [sendIRSignal IR_CODE_ADD_POWER IR_BITS]
    response := redirectRoot }

/-- `handleSendLowerPower`: sends the lower-power code and redirects. -/
def handleSendLowerPower (isFanOn : Bool) : HandlerResult :=
  { isFanOn := isFanOn
    sent := [sendIRSignal IR_CODE_LOWER_POWER IR_BITS]
    response := redirectRoot }

/-- HTTP methods used in `setup`'s route registrations. -/
inductive HttpMethod where
  | GET
  | POST
deriving DecidableEq, Repr

/-- Names for the five handler functions registered in `setup`. -/
inductive RouteHandler where
  | root
  | toggle
  | setState
  | sendAddPower
  | sendLowerPower
deriving DecidableEq, Repr

/-- The route table built by the five `server.on(...)` calls in `setup`,
in registration order. -/
def routes : List (String × HttpMethod × RouteHandler) :=
  [("/", HttpMethod.GET, RouteHandler.root),
   ("/toggle", HttpMethod.POST, RouteHandler.toggle),
   ("/set_state", HttpMethod.POST, RouteHandler.setState),
   ("/send_add_power", HttpMethod.POST, RouteHandler.sendAddPower),
   ("/send_lower_power", HttpMethod.POST, RouteHandler.sendLowerPower)]

/-- Dispatch a named handler on the current state; `stateArg` is the
optional `state` request argument (consulted only by `handleSetState`). -/
def runHandler : RouteHandler → Bool → Option String → HandlerResult
  | RouteHandler.root, b, _ => handleRoot b
  | RouteHandler.toggle, b, _ => handleToggle b
  | RouteHandler.setState, b, a => handleSetState b a
  | RouteHandler.sendAddPower, b, _ => handleSendAddPower b
  | RouteHandler.sendLowerPower, b, _ => handleSendLowerPower b

end Hardware

namespace Hardware

/-- C1: a POST to `/toggle` sends exactly one IR transmission — the fixed
24-bit toggle code `0x80C0C0` over MIDEA24 — and flips `isFanOn` to its
negation. -/
theorem handleToggle_sends_once_and_flips (b : Bool) :
    (handleToggle b).sent = [⟨IRProtocol.MIDEA24, 0x80C0C0, 24⟩] ∧
    (handleToggle b).isFanOn = !b :=
  ⟨rfl, rfl⟩

end Hardware

namespace Hardware

/-- C2 counterexample: the root route is registered, yet its handler
responds 200 with no `Location` header — it does not redirect, refuting
the claim that every one of the five registered routes redirects to `/`. -/
theorem root_handler_does_not_redirect :
    ("/", HttpMethod.GET, RouteHandler.root) ∈ routes ∧
    (runHandler RouteHandler.root false none).response.location ≠ some "/" ∧
    (runHandler RouteHandler.root false none).response.status ≠ 303 := by
  refine ⟨by simp [routes], ?_, ?_⟩ <;> simp [runHandler, handleRoot]

/-- C2 amended: each of the four POST-route handlers (`/toggle`,
`/set_state`, `/send_add_power`, `/send_lower_power`) ends with a 303
redirect whose `Location` is `/`; the root handler instead serves the
page with status 200 and no `Location` header. -/
theorem post_handlers_redirect_root_serves_page (b : Bool) (a : Option String) :
    (∀ h : RouteHandler, h ≠ RouteHandler.root →
      (runHandler h b a).response.status = 303 ∧
      (runHandler h b a).response.location = some "/") ∧
    (runHandler RouteHandler.root b a).response.status = 200 ∧
    (runHandler RouteHandler.root b a).response.location = none := by
  refine ⟨?_, rfl, rfl⟩
  intro h hne
  cases h
  · exact absurd rfl hne
  all_goals exact ⟨rfl, rfl⟩

/-- C2 witness: the amended statement instantiated at the `/toggle`
handler with the fan assumed off. -/
theorem post_handlers_redirect_witness :
    (runHandler RouteHandler.toggle false none).response.status = 303 ∧
    (runHandler RouteHandler.toggle false none).response.location = some "/" :=
  (post_handlers_redirect_root_serves_page false none).1 RouteHandler.toggle (by decide)

/-- C3: a `/set_state` request whose `state` argument is absent or is
neither `"on"` nor `"off"` leaves `isFanOn` unchanged and still answers
with the 303 redirect to `/`. -/
theorem handleSetState_ignores_malformed (b : Bool) (a : Option String)
    (h1 : a ≠ some "on") (h2 : a ≠ some "off") :
    (handleSetState b a).isFanOn = b ∧
    (handleSetState b a).response.status = 303 ∧
    (handleSetState b a).response.location = some "/" := by
  refine ⟨?_, rfl, rfl⟩
  cases a with
  | none => rfl
  | some s =>
      have hs1 : s ≠ "on" := fun hs => h1 (by rw [hs])
      have hs2 : s ≠ "off" := fun hs => h2 (by rw [hs])
      simp [handleSetState, hs1, hs2]

/-- C3 witness: the malformed value `"banana"` with the fan assumed on. -/
theorem handleSetState_ignores_malformed_witness :
    (some "banana" : Option String) ≠ some "on" ∧
    (some "banana" : Option String) ≠ some "off" ∧
    ((handleSetState true (some "banana")).isFanOn = true ∧
     (handleSetState true (some "banana")).response.status = 303 ∧
     (handleSetState true (some "banana")).response.location = some "/") :=
  ⟨by decide, by decide,
   handleSetState_ignores_malformed true (some "banana") (by decide) (by decide)⟩

/-- C4: only toggle and manual sync mutate the state — `handleRoot`,
`handleSendAddPower` and `handleSendLowerPower` leave `isFanOn` unchanged
for every starting value. -/
theorem non_mutating_handlers_preserve_isFanOn (b : Bool) :
    (handleRoot b).isFanOn = b ∧
    (handleSendAddPower b).isFanOn = b ∧
    (handleSendLowerPower b).isFanOn = b :=
  ⟨rfl, rfl, rfl⟩

/-- C5: `sendIRSignal` forwards its code and bit count verbatim to
`irsend.send` with protocol MIDEA24, and every signal any handler sends
is one of the three 24-bit constants `0x80C0C0`, `0x80B0B0`, `0x808888`. -/
theorem sendIRSignal_verbatim_and_only_three_codes
    (code bits : Nat) (h : RouteHandler) (b : Bool) (a : Option String) :
    sendIRSignal code bits = ⟨IRProtocol.MIDEA24, code, bits⟩ ∧
    ∀ sig ∈ (runHandler h b a).sent,
      sig = ⟨IRProtocol.MIDEA24, 0x80C0C0, 24⟩ ∨
      sig = ⟨IRProtocol.MIDEA24, 0x80B0B0, 24⟩ ∨
      sig = ⟨IRProtocol.MIDEA24, 0x808888, 24⟩ := by
  refine ⟨rfl, ?_⟩
  cases h <;>
    simp [runHandler, handleRoot, handleToggle, handleSetState,
      handleSendAddPower, handleSendLowerPower, sendIRSignal,
      IR_CODE_TOGGLE_FAN, IR_CODE_ADD_POWER, IR_CODE_LOWER_POWER, IR_BITS]

/-- C5 witness: verbatim forwarding at code 3 with 8 bits, and the toggle
handler's one transmission is among the three constants. -/
theorem sendIRSignal_verbatim_witness :
    sendIRSignal 3 8 = ⟨IRProtocol.MIDEA24, 3, 8⟩ ∧
    (sendIRSignal 0x80C0C0 24 = ⟨IRProtocol.MIDEA24, 0x80C0C0, 24⟩ ∨
     sendIRSignal 0x80C0C0 24 = ⟨IRProtocol.MIDEA24, 0x80B0B0, 24⟩ ∨
     sendIRSignal 0x80C0C0 24 = ⟨IRProtocol.MIDEA24, 0x808888, 24⟩) :=
  ⟨(sendIRSignal_verbatim_and_only_three_codes 3 8 RouteHandler.toggle false none).1,
   (sendIRSignal_verbatim_and_only_three_codes 3 8 RouteHandler.toggle false none).2
     (sendIRSignal 0x80C0C0 24) (by decide)⟩

/-- C6: `setup` registers exactly five routes and no others — `/` on GET
and the four action paths on POST, in this order. -/
theorem routes_are_exactly_five :
    routes.length = 5 ∧
    routes = [("/", HttpMethod.GET, RouteHandler.root),
              ("/toggle", HttpMethod.POST, RouteHandler.toggle),
              ("/set_state", HttpMethod.POST, RouteHandler.setState),
              ("/send_add_power", HttpMethod.POST, RouteHandler.sendAddPower),
              ("/send_lower_power", HttpMethod.POST, RouteHandler.sendLowerPower)] :=
  ⟨rfl, rfl⟩

/-- C7: one POST to `/send_add_power` or `/send_lower_power` causes
exactly one IR transmission of the corresponding power code — never zero,
never more than one. -/
theorem power_handlers_send_exactly_one (b : Bool) :
    (handleSendAddPower b).sent.length = 1 ∧
    (handleSendAddPower b).sent = [⟨IRProtocol.MIDEA24, 0x80B0B0, 24⟩] ∧
    (handleSendLowerPower b).sent.length = 1 ∧
    (handleSendLowerPower b).sent = [⟨IRProtocol.MIDEA24, 0x808888, 24⟩] :=
  ⟨rfl, rfl, rfl, rfl⟩

/-- C8: `isFanOn` starts out `false`, and the root page rendered in that
state reports `Current State: OFF` and offers the `Turn ON` button. -/
theorem initial_state_off_page_reports_off :
    isFanOn_initial = false ∧
    (∃ p q, rootHtml isFanOn_initial =
      p ++ ("<p>Current State: <b>" ++ "OFF" ++ "</b></p>") ++ q) ∧
    (∃ p q, rootHtml isFanOn_initial =
      p ++ "<button type=\x27submit\x27 class=\x27btn-main\x27>Turn ON</button>" ++ q) := by
  refine ⟨rfl, ⟨htmlHead ++ "<div class=\x27container\x27>" ++ "<h3>Main Control</h3>",
    "<form action=\x27/toggle\x27 method=\x27post\x27>"
      ++ "<button type=\x27submit\x27 class=\x27btn-main\x27>Turn ON</button>"
      ++ "</form></div>" ++ htmlPower ++ htmlSync ++ "</body></html>", ?_⟩,
    ⟨htmlHead ++ "<div class=\x27container\x27>" ++ "<h3>Main Control</h3>"
      ++ "<p>Current State: <b>" ++ "OFF" ++ "</b></p>"
      ++ "<form action=\x27/toggle\x27 method=\x27post\x27>",
    "</form></div>" ++ htmlPower ++ htmlSync ++ "</body></html>", ?_⟩⟩ <;>
  simp [rootHtml, isFanOn_initial, htmlHead, htmlPower, htmlSync, String.append_assoc]

/-- C9: `handleSetState` never transmits IR — its list of sends is empty
for every state and every (present or absent) argument. -/
theorem handleSetState_sends_no_ir (b : Bool) (a : Option String) :
    (handleSetState b a).sent = [] :=
  rfl

/-- C10: toggling twice restores `isFanOn`, and `/set_state` with the
same valid value twice leaves the same state as applying it once. -/
theorem toggle_involutive_setState_idempotent (b : Bool) :
    (handleToggle (handleToggle b).isFanOn).isFanOn = b ∧
    ∀ s : String, s = "on" ∨ s = "off" →
      (handleSetState (handleSetState b (some s)).isFanOn (some s)).isFanOn =
        (handleSetState b (some s)).isFanOn := by
  refine ⟨by simp [handleToggle], ?_⟩
  rintro s (rfl | rfl) <;> simp [handleSetState]

/-- C10 witness: idempotence of `/set_state` at the valid value `"on"`
starting from the off state. -/
theorem toggle_involutive_setState_idempotent_witness :
    (handleSetState (handleSetState false (some "on")).isFanOn (some "on")).isFanOn =
      (handleSetState false (some "on")).isFanOn :=
  (toggle_involutive_setState_idempotent false).2 "on" (Or.inl rfl)

end Hardware
